import Mathlib

/-!
Verification of the job-application-monitor pipeline
(`src/job-application-monitor/monitor.py`).

Strings are embedded as `List Char`. Python `str.lower()` is embedded as
character-wise `Char.toLower` (the repository only matches ASCII keywords).
Regular-expression searches of the source are embedded as executable scanning
functions with the same leftmost-match and greedy/backtracking semantics,
specialised to the concrete patterns appearing in the source.

External collaborators (IMAP fetch, SMTP send, sheet/CSV sinks, WhatsApp,
PDF/DOCX text extraction) are modelled as environment parameters, and the
side effects the core requests from them are recorded in an explicit
effect trace.
-/

/-- Convert a string literal to the `List Char` representation used throughout. -/
def s2l (s : String) : List Char := s.data

/-- Python `str.lower()` (character-wise, ASCII-faithful). -/
def lowerL (s : List Char) : List Char := s.map Char.toLower

/-- Python regex `\s` / `str.strip()` whitespace, ASCII range. -/
def isSpaceChar (c : Char) : Bool :=
  c = ' ' || c = '\t' || c = '\n' || c = '\r' || c = '\x0b' || c = '\x0c'

/-- Prefix test `listStarts needle hay`: `needle` is an initial segment of `hay`. -/
def listStarts : List Char → List Char → Bool
  | [], _ => true
  | _ :: _, [] => false
  | a :: as, b :: bs => a = b && listStarts as bs

/-- Python `needle in hay` substring test. -/
def hasSub (needle : List Char) : List Char → Bool
  | [] => needle.isEmpty
  | c :: rest => listStarts needle (c :: rest) || hasSub needle rest

/-- Python `str.strip()`. -/
def stripL (s : List Char) : List Char :=
  ((s.dropWhile isSpaceChar).reverse.dropWhile isSpaceChar).reverse

/-- Decimal rendering of a natural number (for feedback lines). -/
def natStr (n : Nat) : List Char := Nat.toDigits 10 n

/-- Python `int(...)` on a run of decimal digits. -/
def digitsToNat (ds : List Char) : Nat :=
  ds.foldl (fun n c => n * 10 + (c.toNat - 48)) 0

/-! ## Sender email extraction and validation (`extract_email`, `_is_valid_email`,
`_is_automated_email`) -/

/-- Character class `[a-zA-Z0-9._%+-]` of the local part of `_is_valid_email`. -/
def isLocalChar (c : Char) : Bool :=
  c.isAlpha || c.isDigit || c = '.' || c = '_' || c = '%' || c = '+' || c = '-'

/-- Character class `[a-zA-Z0-9.-]` of the domain part of `_is_valid_email`. -/
def isDomChar (c : Char) : Bool :=
  c.isAlpha || c.isDigit || c = '.' || c = '-'

/-- Regex `\w` (ASCII). -/
def isWordChar (c : Char) : Bool := c.isAlpha || c.isDigit || c = '_'

/-- Character class `[\w\.-]` of the bare-email regex in `extract_email`. -/
def isEmailClass (c : Char) : Bool := isWordChar c || c = '.' || c = '-'

/-- Split a list at its LAST `'.'`: `splitLastDot l = some (b, a)` with
`l = b ++ '.' :: a` and `'.' ∉ a`; `none` when `l` has no dot. -/
def splitLastDot : List Char → Option (List Char × List Char)
  | [] => none
  | c :: cs =>
    match splitLastDot cs with
    | some (b, a) => some (c :: b, a)
    | none => if c = '.' then some ([], cs) else none

/-- Anchored body of `_is_valid_email`'s regex
`^[a-zA-Z0-9._%+-]+@[a-zA-Z0-9.-]+\.[a-zA-Z]{2,}$` against a whole string.
The local run is forced maximal (no class char can match the literal `@`),
and only the last dot of the domain can start the final `[a-zA-Z]{2,}$`. -/
def validEmailCore (s : List Char) : Bool :=
  let lp := s.takeWhile isLocalChar
  if lp.isEmpty then false
  else
    match s.drop lp.length with
    | '@' :: rest =>
      match splitLastDot rest with
      | some (b, a) => !b.isEmpty && b.all isDomChar && decide (2 ≤ a.length) && a.all Char.isAlpha
      | none => false
    | _ => false

/-- Source `JobApplicationMonitor._is_valid_email`. Python `$` also accepts one
trailing newline, which `re.match` tolerates. -/
def is_valid_email (e : List Char) : Bool :=
  if e.isEmpty then false
  else validEmailCore e || (e.getLast? == some '\n' && validEmailCore e.dropLast)

/-- Helper of the `<(.+?)>` search: collect the (non-empty, newline-free) group
between the opening `<` and the first following `>`; the first group character
may itself be `>` because `.` matches it. `acc` holds the group read so far. -/
def scanGroup (acc : List Char) : List Char → Option (List Char)
  | [] => none
  | '>' :: _ => some acc.reverse
  | '\n' :: _ => none
  | c :: rest => scanGroup (c :: acc) rest

/-- Leftmost match of the lazy group of `re.search(r'<(.+?)>', h)`. -/
def bracketContent : List Char → Option (List Char)
  | [] => none
  | '<' :: rest =>
    (match rest with
     | [] => none
     | '\n' :: _ => bracketContent rest
     | c :: rest2 =>
       match scanGroup [c] rest2 with
       | some inner => some inner
       | none => bracketContent rest)
  | _ :: rest => bracketContent rest

/-- Split `r` at the LAST `'.'` that is immediately followed by a `\w`
character (the dot the greedy `[\w\.-]+\.(\w+)` tail commits to). -/
def lastDotWordSplit : List Char → Option (List Char × List Char)
  | [] => none
  | c :: cs =>
    match lastDotWordSplit cs with
    | some (b, a) => some (c :: b, a)
    | none =>
      if c = '.' then
        match cs with
        | d :: _ => if isWordChar d then some ([], cs) else none
        | [] => none
      else none

/-- Try the bare-email regex `[\w\.-]+@[\w\.-]+\.\w+` anchored at the head of
`s`, returning the matched text (the class cannot match `@`, so the runs
around `@` are forced; the greedy tail commits to the last eligible dot). -/
def tryBareAt (s : List Char) : Option (List Char) :=
  let r1 := s.takeWhile isEmailClass
  if r1.isEmpty then none
  else
    match s.drop r1.length with
    | '@' :: rest =>
      let r2 := rest.takeWhile isEmailClass
      match lastDotWordSplit r2 with
      | some (b, a) =>
        if b.isEmpty then none
        else some (r1 ++ '@' :: b ++ '.' :: a.takeWhile isWordChar)
      | none => none
    | _ => none

/-- Leftmost match of `re.search(r'[\w\.-]+@[\w\.-]+\.\w+', h)`. -/
def findBareEmail : List Char → Option (List Char)
  | [] => none
  | c :: rest =>
    match tryBareAt (c :: rest) with
    | some m => some m
    | none => findBareEmail rest

/-- Second half of `extract_email`: bare-regex match, validated; `''` otherwise. -/
def bareEmailFallback (h : List Char) : List Char :=
  match findBareEmail h with
  | some m => let e := stripL m; if is_valid_email e then e else []
  | none => []

/-- Source `JobApplicationMonitor.extract_email`: angle-bracket token first, else a
bare email-shaped substring, each validated; `''` when neither validates. -/
def extract_email (from_header : List Char) : List Char :=
  match bracketContent from_header with
  | some inner =>
    let e := stripL inner
    if is_valid_email e then e else bareEmailFallback from_header
  | none => bareEmailFallback from_header

/-- The fixed automated-sender substring tokens of `_is_automated_email`. -/
def automated_patterns : List (List Char) :=
  [s2l "noreply", s2l "no-reply", s2l "no_reply",
   s2l "donotreply", s2l "do-not-reply", s2l "do_not_reply",
   s2l "auto", s2l "automated", s2l "bot", s2l "robot",
   s2l "notification", s2l "notify", s2l "alert",
   s2l "mailer", s2l "daemon", s2l "server",
   s2l "academic", s2l "premium", s2l "service"]

/-- The fixed automated-sender domains of `_is_automated_email`. -/
def automated_domains : List (List Char) :=
  [s2l "@linkedin.com", s2l "@indeed.com", s2l "@glassdoor.com",
   s2l "@mailchimp.com", s2l "@sendgrid.com", s2l "@amazonses.com"]

/-- Source `JobApplicationMonitor._is_automated_email`. -/
def is_automated_email (e : List Char) : Bool :=
  if e.isEmpty then false
  else
    let el := lowerL e
    automated_patterns.any (fun p => hasSub p el) ||
      automated_domains.any (fun d => hasSub d el)

/-! ## Message model and classifier (`is_job_application`) -/

/-- One part yielded by `msg.walk()` (excluding multipart containers, which
carry no filename and a `multipart/...` content type). -/
structure MsgPart where
  contentType : List Char
  filename : Option (List Char)
  hasContentDisposition : Bool
  payload : List Char
deriving DecidableEq

/-- A parsed inbound email. For a non-multipart message, `parts` is the
singleton list holding the message itself (as `msg.walk()` yields it). -/
structure Message where
  fromHeader : List Char
  subject : List Char
  multipart : Bool
  parts : List MsgPart
deriving DecidableEq

/-- The fixed subject keyword set of `is_job_application`. -/
def application_keywords : List (List Char) :=
  [s2l "apply", s2l "application", s2l "resume", s2l "cv", s2l "job",
   s2l "position", s2l "hiring", s2l "vacancy", s2l "career",
   s2l "opportunity", s2l "role"]

/-- Attachment extension substrings checked by `is_job_application`. -/
def cv_extensions : List (List Char) := [s2l ".pdf", s2l ".doc", s2l ".docx"]

/-- CV-ish filename keywords checked by `is_job_application`. -/
def cv_filename_keywords : List (List Char) :=
  [s2l "cv", s2l "resume", s2l "curriculum", s2l "vitae"]

/-- Job-portal domains checked by `is_job_application`. -/
def job_portal_domains : List (List Char) :=
  [s2l "linkedin.com", s2l "indeed.com", s2l "glassdoor.com", s2l "rozee.pk",
   s2l "bayt.com", s2l "naukrigulf.com", s2l "monster.com"]

/-- Source `JobApplicationMonitor.is_job_application`: subject keyword, OR a
`.pdf/.doc/.docx` attachment whose filename mentions a CV keyword, OR a
job-portal domain in the From header. -/
def is_job_application (subject : List Char) (msg : Message) : Bool :=
  let subject_lower := lowerL subject
  application_keywords.any (fun k => hasSub k subject_lower) ||
  msg.parts.any (fun p =>
    match p.filename with
    | some f =>
      let fl := lowerL f
      cv_extensions.any (fun e => hasSub e fl) &&
        cv_filename_keywords.any (fun k => hasSub k fl)
    | none => false) ||
  job_portal_domains.any (fun d => hasSub d (lowerL msg.fromHeader))

/-! ## Phone extraction (`extract_phone`)

The two phone regexes are embedded as backtracking matchers in
continuation-passing style; each combinator returns the number of characters
consumed when the remainder of the pattern (the continuation `k`) succeeds. -/

/-- Regex `c?` (greedy: try consuming `c` first). -/
def mOptChar (c : Char) (k : List Char → Option Nat) : List Char → Option Nat
  | [] => k []
  | x :: rest =>
    if x = c then
      match k rest with
      | some n => some (n + 1)
      | none => k (x :: rest)
    else k (x :: rest)

/-- Regex `[p]?` for a character class `p` (greedy). -/
def mOptPred (p : Char → Bool) (k : List Char → Option Nat) : List Char → Option Nat
  | [] => k []
  | x :: rest =>
    if p x then
      match k rest with
      | some n => some (n + 1)
      | none => k (x :: rest)
    else k (x :: rest)

/-- Regex `\d{n}` (exactly `n` digits). -/
def mDigits : Nat → (List Char → Option Nat) → List Char → Option Nat
  | 0, k, s => k s
  | m + 1, k, s =>
    match s with
    | [] => none
    | x :: rest =>
      if x.isDigit then (mDigits m k rest).map (· + 1) else none

/-- Regex `\d{1,3}` (greedy: try 3, then 2, then 1). -/
def mDigits1to3 (k : List Char → Option Nat) (s : List Char) : Option Nat :=
  match mDigits 3 k s with
  | some n => some n
  | none =>
    match mDigits 2 k s with
    | some n => some n
    | none => mDigits 1 k s

/-- Regex `\d{lo,hi}` (greedy: try `hi` digits first, down to `lo`). -/
def mDigitsDown (lo : Nat) : Nat → (List Char → Option Nat) → List Char → Option Nat
  | 0, k, s => if lo = 0 then mDigits 0 k s else none
  | hi + 1, k, s =>
    if hi + 1 < lo then none
    else
      match mDigits (hi + 1) k s with
      | some n => some n
      | none => mDigitsDown lo hi k s

/-- Empty continuation: the pattern ends here. -/
def mEnd : List Char → Option Nat := fun _ => some 0

/-- Regex class `[-.\s]` of the first phone pattern. -/
def isSepChar (c : Char) : Bool := c = '-' || c = '.' || isSpaceChar c

/-- First phone pattern `\+?\d{1,3}[-.\s]?\(?\d{3}\)?[-.\s]?\d{3}[-.\s]?\d{4}`
anchored at the head of the input. -/
def matchPhone1 : List Char → Option Nat :=
  mOptChar '+' (mDigits1to3 (mOptPred isSepChar (mOptChar '(' (mDigits 3
    (mOptChar ')' (mOptPred isSepChar (mDigits 3 (mOptPred isSepChar
      (mDigits 4 mEnd)))))))))

/-- Second phone pattern `\+?\d{10,15}` anchored at the head of the input. -/
def matchPhone2 : List Char → Option Nat :=
  mOptChar '+' (mDigitsDown 10 15 mEnd)

/-- Search semantics of `re.search`: leftmost match of an anchored matcher, returning the matched
text (`group(0)`). -/
def searchPattern (m : List Char → Option Nat) : List Char → Option (List Char)
  | [] => (m []).map (fun n => ([] : List Char).take n)
  | c :: rest =>
    match m (c :: rest) with
    | some n => some ((c :: rest).take n)
    | none => searchPattern m rest

/-- The per-part body scan of `extract_phone`: first pattern first, then the
second, over the whole body. -/
def phoneFromBody (body : List Char) : Option (List Char) :=
  match searchPattern matchPhone1 body with
  | some r => some r
  | none => searchPattern matchPhone2 body

/-- The part loop of `extract_phone`: return the match from the first
`text/plain` part whose body matches; `''` when none does. -/
def phoneScan : List MsgPart → List Char
  | [] => []
  | p :: ps =>
    if p.contentType = s2l "text/plain" then
      match phoneFromBody p.payload with
      | some r => r
      | none => phoneScan ps
    else phoneScan ps

/-- Source `JobApplicationMonitor.extract_phone`. NOTE the guard from the source:
the body walk only happens when `msg.is_multipart()` is true. -/
def extract_phone (msg : Message) : List Char :=
  if msg.multipart then phoneScan msg.parts else []

/-- Modelled from the spec claim: "scan plain-text body parts for the first
match of an international-prefixed or bare 10-15 digit phone pattern; return
empty if none found" — with no multipart guard. Used to compare the code
against the claim. -/
def phone_spec (msg : Message) : List Char :=
  (((msg.parts.filter (fun p => decide (p.contentType = s2l "text/plain"))).findSome?
      (fun p => phoneFromBody p.payload)).getD [])

/-! ## CV extraction (`extract_cv_from_email`) -/

/-- Suffix of `l` from its last `'.'` (inclusive), if any. -/
def lastExt : List Char → Option (List Char)
  | [] => none
  | c :: cs =>
    match lastExt cs with
    | some e => some e
    | none => if c = '.' then some (c :: cs) else none

/-- Python `os.path.splitext(name)[1]`: the extension from the last dot, where
leading dots of the (directory-free) name never start an extension. -/
def splitextExt (name : List Char) : List Char :=
  (lastExt (name.dropWhile (· = '.'))).getD []

/-- Source `JobApplicationMonitor.extract_cv_from_email`, returning
`(cv_text, cv_path)`. The external PDF/DOCX text-extraction capability is the
environment function `textOf : path → text` (Python: `parse_pdf`/`parse_docx`,
empty text on any failure); `.txt` parts are read from the saved payload.
The loop keeps the last `(text, path)` written and stops at the first part
that yields non-empty text, exactly as the source loop does. -/
def extract_cv_from_email (textOf : List Char → List Char) :
    List MsgPart → (List Char × List Char) → (List Char × List Char)
  | [], acc => acc
  | p :: ps, acc =>
    if listStarts (s2l "multipart") p.contentType then
      extract_cv_from_email textOf ps acc
    else if !p.hasContentDisposition then extract_cv_from_email textOf ps acc
    else
      match p.filename with
      | none => extract_cv_from_email textOf ps acc
      | some f =>
        let ext := lowerL (splitextExt f)
        let path := s2l "cv_cache/" ++ f
        let acc2 :=
          if ext = s2l ".pdf" then (textOf path, path)
          else if ext = s2l ".docx" || ext = s2l ".doc" then (textOf path, path)
          else if ext = s2l ".txt" then (p.payload, path)
          else acc
        if acc2.1.isEmpty then extract_cv_from_email textOf ps acc2 else acc2

/-! ## Scoring engine (`score_candidate`) -/

/-- The scoring/auto-reply/storage configuration the pipeline reads
(`config.json` with the defaults from `_load_config`). -/
structure Config where
  passing_score : Nat := 8
  max_score : Nat := 10
  auto_reply_enabled : Bool := true
  storage : Bool := true
deriving DecidableEq

/-- The default configuration (`passing_score = 8`, `max_score = 10`). -/
def defaultConfig : Config := {}

/-- Profile from `requirements.json` (`_load_requirements` defaults). -/
structure Requirements where
  position : List Char := s2l "General"
  required_skills : List (List Char) := []
  preferred_skills : List (List Char) := []
  min_experience : Nat := 0
  education : List (List Char) := []
  keywords : List (List Char) := []
deriving DecidableEq

/-- The default (entirely empty) requirements profile. -/
def emptyRequirements : Requirements := {}

/-- Python `sum(1 for t in terms if t.lower() in cv_text)` — number of terms whose
lowercased form occurs as a substring of the (already lowercased) CV text. -/
def countMatched (terms : List (List Char)) (cv_text : List Char) : Nat :=
  (terms.filter (fun t => hasSub (lowerL t) cv_text)).length

/-- Formula `min(points, int((matched / total) * points))`. Python computes the inner
ratio in floating point; on the list sizes involved `int((m/t)*p)` equals the
exact floor `(m*p)/t`, which is how it is embedded. -/
def dimScore (matched total points : Nat) : Nat :=
  min points ((matched * points) / total)

/-- Required-skills dimension (0-3): scored only when the requirement list is
non-empty, with a feedback line; otherwise contributes nothing. -/
def requiredDim (skills : List (List Char)) (cv_text : List Char) :
    Nat × List (List Char) :=
  if skills.isEmpty then (0, [])
  else
    let m := countMatched skills cv_text
    (dimScore m skills.length 3,
     [s2l "Required Skills: " ++ natStr m ++ '/' :: natStr skills.length ++ s2l " matched"])

/-- Preferred-skills dimension (0-2), same shape as `requiredDim`. -/
def preferredDim (skills : List (List Char)) (cv_text : List Char) :
    Nat × List (List Char) :=
  if skills.isEmpty then (0, [])
  else
    let m := countMatched skills cv_text
    (dimScore m skills.length 2,
     [s2l "Preferred Skills: " ++ natStr m ++ '/' :: natStr skills.length ++ s2l " matched"])

/-- Keywords dimension (0-2), same shape as `requiredDim`. -/
def keywordDim (kws : List (List Char)) (cv_text : List Char) :
    Nat × List (List Char) :=
  if kws.isEmpty then (0, [])
  else
    let m := countMatched kws cv_text
    (dimScore m kws.length 2,
     [s2l "Keywords: " ++ natStr m ++ '/' :: natStr kws.length ++ s2l " matched"])

/-- Try the experience regex `(\d+)\+?\s*years?` anchored at the head of the
input: a maximal digit run (no shorter run can be followed by `\+?\s*year`),
an optional `+`, whitespace, then `year`. Returns `int(group(1))`. -/
def matchYearsAt (s : List Char) : Option Nat :=
  let ds := s.takeWhile Char.isDigit
  if ds.isEmpty then none
  else
    let r1 := s.drop ds.length
    let r2 := match r1 with
      | '+' :: t => t
      | t => t
    let r3 := r2.dropWhile isSpaceChar
    if listStarts (s2l "year") r3 then some (digitsToNat ds) else none

/-- Search `re.search(r'(\d+)\+?\s*years?', cv_text)`: leftmost match. -/
def searchYears : List Char → Option Nat
  | [] => none
  | c :: rest =>
    match matchYearsAt (c :: rest) with
    | some n => some n
    | none => searchYears rest

/-- Experience dimension (0-2) of `score_candidate`: with a positive minimum,
score the first `N years` found in the CV text (`>= min` gives 2, `>= min-1`
gives 1, else 0); full 2 points when no minimum is required. -/
def expScore (min_exp : Nat) (cv_text : List Char) : Nat × List (List Char) :=
  if 0 < min_exp then
    match searchYears cv_text with
    | some years =>
      if min_exp ≤ years then
        (2, [s2l "Experience: " ++ natStr years ++ s2l " years (meets requirement)"])
      else if min_exp - 1 ≤ years then
        (1, [s2l "Experience: " ++ natStr years ++ s2l " years (close)"])
      else
        (0, [s2l "Experience: " ++ natStr years ++ s2l " years (below requirement)"])
    | none => (0, [s2l "Experience: Could not determine"])
  else (2, [])

/-- Education dimension (0-1): any configured term as a substring scores 1;
full 1 point when no terms are configured. -/
def eduScore (education : List (List Char)) (cv_text : List Char) :
    Nat × List (List Char) :=
  if education.isEmpty then (1, [])
  else if education.any (fun e => hasSub (lowerL e) cv_text) then
    (1, [s2l "Education: Match found"])
  else (0, [s2l "Education: No clear match"])

/-- Python `'; '.join(feedback)`. -/
def joinSemi (ls : List (List Char)) : List Char := List.intercalate (s2l "; ") ls

/-- The `{score, feedback, status}` record returned by `score_candidate`. -/
structure ScoreData where
  score : Nat
  feedback : List Char
  status : List Char
deriving DecidableEq

/-- Source `JobApplicationMonitor.score_candidate` as a pure function of the CV text
(`candidate_data.get('cv_content','')`), the requirements and the scoring
configuration. The total is capped at `max_score`; status is `Passed` iff the
capped total reaches `passing_score`. -/
def score_candidate (cfg : Config) (reqs : Requirements) (cv_content : List Char) :
    ScoreData :=
  let cv_text := lowerL cv_content
  let r := requiredDim reqs.required_skills cv_text
  let p := preferredDim reqs.preferred_skills cv_text
  let e := expScore reqs.min_experience cv_text
  let d := eduScore reqs.education cv_text
  let w := keywordDim reqs.keywords cv_text
  let total := min (r.1 + p.1 + e.1 + d.1 + w.1) cfg.max_score
  { score := total,
    feedback := joinSemi (r.2 ++ p.2 ++ e.2 ++ d.2 ++ w.2),
    status := if cfg.passing_score ≤ total then s2l "Passed" else s2l "Review" }

/-! ## Pipeline orchestrator and dispatch ledger
(`process_application`, `process_new_emails`, the `processed_emails` /
`sent_reply_emails` sets) -/

/-- The `candidate_data` record handed to the storage / notification sinks. -/
structure Candidate where
  timestamp : List Char
  name : List Char
  email : List Char
  subject : List Char
  position : List Char
  phone : List Char
  cv_content : List Char
  cv_path : List Char
  score : Nat
  feedback : List Char
  status : List Char
deriving DecidableEq

/-- One side effect requested from an external collaborator. `fetch` is the
IMAP fetch of a message id; `store` is the sheet/CSV row append; `notify` is
the WhatsApp call; `reply id ok` is the auto-reply attempt for the daily key
`id`, with the success flag the mail sink reported. -/
inductive Effect where
  | fetch (id : List Char)
  | store (c : Candidate)
  | notify (c : Candidate)
  | reply (key : List Char) (ok : Bool)
deriving DecidableEq

/-- The durable dispatch ledger (`processed_emails.txt`, `sent_replies.txt`),
loaded at startup and appended to by `save_processed_email` /
`save_sent_reply`. -/
structure MonitorState where
  processedEmails : List (List Char)
  sentReplies : List (List Char)
deriving DecidableEq

/-- The external world of one run: today's date (`%Y-%m-%d`), the `now`
timestamp, the IMAP fetch results per id, the reply sink's reported success
per id, and the pure header/subject/attachment functions no claim constrains
(`extract_name`, `extract_position`, `parse_pdf`/`parse_docx`), which are
therefore universally quantified rather than transcribed. -/
structure RunEnv where
  date : List Char
  now : List Char
  fetch : List Char → Option Message
  sendOk : List Char → Bool
  nameOf : List Char → List Char
  positionOf : List Char → List Char
  textOf : List Char → List Char

/-- The two sender-nulling steps of `process_application`: an extracted email
that is empty or fails `_is_valid_email` is replaced by `''`, and a valid but
automated address is then also replaced by `''`. -/
def finalSender (from_header : List Char) : List Char :=
  let e0 := extract_email from_header
  let e1 := if e0 = [] ∨ is_valid_email e0 = false then [] else e0
  if e1 ≠ [] ∧ is_automated_email e1 = true then [] else e1

/-- Build `candidate_data` (extraction plus scoring) for a classified
application, with the already-nulled sender email. -/
def buildCandidate (cfg : Config) (reqs : Requirements) (renv : RunEnv)
    (msg : Message) (sender_email : List Char) : Candidate :=
  let cv := extract_cv_from_email renv.textOf msg.parts ([], [])
  let sd := score_candidate cfg reqs cv.1
  { timestamp := renv.now
    name := renv.nameOf msg.fromHeader
    email := sender_email
    subject := msg.subject
    position := renv.positionOf msg.subject
    phone := extract_phone msg
    cv_content := cv.1
    cv_path := cv.2
    score := sd.score
    feedback := sd.feedback
    status := sd.status }

/-- The daily dedup key `f"{sender_email}_{date}"` of `process_application`. -/
def replyKey (sender_email date : List Char) : List Char :=
  sender_email ++ '_' :: date

/-- The auto-reply block of `process_application`: gated on the config flag
and a non-empty sender, deduplicated by the daily key `email + "_" + date`,
and recorded in the ledger only when the send reports success. -/
def replyStep (cfg : Config) (date : List Char) (sendOk : Bool)
    (sender_email : List Char) (st : MonitorState) : MonitorState × List Effect :=
  if cfg.auto_reply_enabled = true ∧ sender_email ≠ [] then
    if replyKey sender_email date ∈ st.sentReplies then (st, [])
    else if sendOk then
      ({ st with sentReplies := replyKey sender_email date :: st.sentReplies },
       [Effect.reply (replyKey sender_email date) true])
    else (st, [Effect.reply (replyKey sender_email date) false])
  else (st, [])

/-- Source `JobApplicationMonitor.process_application`: null the sender if invalid or
automated, drop silently if not classified as a job application, otherwise
extract, score, store, notify when passing, and run the auto-reply block. -/
def process_application (cfg : Config) (reqs : Requirements) (renv : RunEnv)
    (sendOk : Bool) (msg : Message) (st : MonitorState) :
    MonitorState × List Effect :=
  let sender_email := finalSender msg.fromHeader
  if is_job_application msg.subject msg = true then
    let cand := buildCandidate cfg reqs renv msg sender_email
    let r := replyStep cfg renv.date sendOk sender_email st
    (r.1,
      (if cfg.storage = true then [Effect.store cand] else []) ++
      (if cfg.passing_score ≤ cand.score then [Effect.notify cand] else []) ++ r.2)
  else (st, [])

/-- Source `JobApplicationMonitor.process_new_emails` over the id window the search
returned: skip ids already in the processed set BEFORE fetching; on a
successful fetch, process the message and only then record the id
(`save_processed_email`); a failed fetch records nothing. -/
def process_new_emails (cfg : Config) (reqs : Requirements) (renv : RunEnv) :
    List (List Char) → MonitorState → MonitorState × List Effect
  | [], st => (st, [])
  | id :: ids, st =>
    if id ∈ st.processedEmails then process_new_emails cfg reqs renv ids st
    else
      match renv.fetch id with
      | none =>
        let r := process_new_emails cfg reqs renv ids st
        (r.1, Effect.fetch id :: r.2)
      | some msg =>
        let pa := process_application cfg reqs renv (renv.sendOk id) msg st
        let st2 : MonitorState :=
          { pa.1 with processedEmails := id :: pa.1.processedEmails }
        let r := process_new_emails cfg reqs renv ids st2
        (r.1, Effect.fetch id :: (pa.2 ++ r.2))

/-- Is this effect a successful reply under key `k`? -/
def isReplyOk (k : List Char) : Effect → Bool
  | Effect.reply k2 ok => ok && decide (k2 = k)
  | _ => false

/-- Number of successful reply sends for key `k` in a trace. -/
def replyCount (t : List Effect) (k : List Char) : Nat :=
  (t.filter (isReplyOk k)).length

/-- Is this effect a fetch of id `i`? -/
def isFetchOf (i : List Char) : Effect → Bool
  | Effect.fetch j => decide (j = i)
  | _ => false

/-- Number of fetch attempts for id `i` in a trace. -/
def fetchCount (t : List Effect) (i : List Char) : Nat :=
  (t.filter (isFetchOf i)).length

/-! ## Equation helpers for `score_candidate` -/

/-- The score field of `score_candidate` is the capped dimension sum. -/
theorem score_candidate_score (cfg : Config) (reqs : Requirements) (cv : List Char) :
    (score_candidate cfg reqs cv).score =
      min ((requiredDim reqs.required_skills (lowerL cv)).1 +
           (preferredDim reqs.preferred_skills (lowerL cv)).1 +
           (expScore reqs.min_experience (lowerL cv)).1 +
           (eduScore reqs.education (lowerL cv)).1 +
           (keywordDim reqs.keywords (lowerL cv)).1) cfg.max_score := rfl

/-- The status field of `score_candidate` compares the capped score with the
passing threshold. -/
theorem score_candidate_status (cfg : Config) (reqs : Requirements) (cv : List Char) :
    (score_candidate cfg reqs cv).status =
      if cfg.passing_score ≤ (score_candidate cfg reqs cv).score
      then s2l "Passed" else s2l "Review" := rfl

/-- C3: for every candidate record produced by the scoring engine, the score
satisfies `0 ≤ score ≤ max_score`, and the status is `Passed` if and only if
the score reaches the passing threshold, otherwise `Review`. -/
theorem score_bounds_and_status (cfg : Config) (reqs : Requirements) (cv : List Char) :
    0 ≤ (score_candidate cfg reqs cv).score ∧
    (score_candidate cfg reqs cv).score ≤ cfg.max_score ∧
    ((score_candidate cfg reqs cv).status = s2l "Passed" ↔
      cfg.passing_score ≤ (score_candidate cfg reqs cv).score) ∧
    ((score_candidate cfg reqs cv).status = s2l "Passed" ∨
      (score_candidate cfg reqs cv).status = s2l "Review") := by
  refine ⟨Nat.zero_le _, ?_, ?_, ?_⟩
  · rw [score_candidate_score]; exact Nat.min_le_right _ _
  · rw [score_candidate_status]
    split
    · next h => simpa using h
    · next h =>
      constructor
      · intro hre; exact absurd hre (by decide)
      · intro hle; exact absurd hle h
  · rw [score_candidate_status]
    split
    · exact Or.inl rfl
    · exact Or.inr rfl

/-- C4 counterexample: with the default configuration and an entirely empty
requirements profile, a candidate scores 3, not the maximum 10: the skills
and keyword dimensions are skipped with zero points when their requirement
sets are empty, not awarded full credit. -/
theorem empty_profile_not_max :
    (score_candidate defaultConfig emptyRequirements (s2l "seasoned expert")).score = 3 ∧
    defaultConfig.max_score = 10 ∧
    (score_candidate defaultConfig emptyRequirements (s2l "seasoned expert")).status
      = s2l "Review" := by
  refine ⟨rfl, rfl, rfl⟩

/-- Joining an empty feedback list yields the empty string. -/
theorem joinSemi_nil : joinSemi [] = [] := rfl

/-- C4 amended: only the experience dimension (when `min_experience = 0`) and
the education dimension (when no terms are configured) award their full
points (2 and 1) for an empty requirement; the required-skills, preferred-
skills and keyword dimensions are skipped with zero points, so an entirely
empty requirements profile gives every candidate the score
`min 3 max_score` (no feedback lines), not the maximum. -/
theorem empty_dims_score (cfg : Config) (reqs : Requirements) (cv : List Char)
    (h1 : reqs.required_skills = []) (h2 : reqs.preferred_skills = [])
    (h3 : reqs.min_experience = 0) (h4 : reqs.education = [])
    (h5 : reqs.keywords = []) :
    (score_candidate cfg reqs cv).score = min 3 cfg.max_score ∧
    (score_candidate cfg reqs cv).feedback = [] ∧
    (expScore reqs.min_experience (lowerL cv)).1 = 2 ∧
    (eduScore reqs.education (lowerL cv)).1 = 1 ∧
    (requiredDim reqs.required_skills (lowerL cv)).1 = 0 ∧
    (preferredDim reqs.preferred_skills (lowerL cv)).1 = 0 ∧
    (keywordDim reqs.keywords (lowerL cv)).1 = 0 := by
  simp [score_candidate, requiredDim, preferredDim, keywordDim, expScore, eduScore,
    h1, h2, h3, h4, h5, joinSemi_nil]

/-- C4 witness: the amended statement at the default profile. -/
theorem empty_dims_score_app :
    (score_candidate defaultConfig emptyRequirements (s2l "any cv text")).score
      = min 3 defaultConfig.max_score :=
  (empty_dims_score defaultConfig emptyRequirements (s2l "any cv text")
    rfl rfl rfl rfl rfl).1

/-- C5: for a non-empty required-skills set, the required-skills sub-score is
`floor(matched/total * 3)` capped at 3, with `matched` the number of required
terms occurring as substrings of the lowercased CV text. -/
theorem required_skills_floor (skills : List (List Char)) (cv_text : List Char)
    (h : skills ≠ []) :
    (requiredDim skills cv_text).1 =
      min 3 (Nat.floor ((countMatched skills cv_text : ℚ) / (skills.length : ℚ) * 3)) := by
  have hne : skills.isEmpty = false := by
    cases skills with
    | nil => exact absurd rfl h
    | cons a l => rfl
  have hcast : ((countMatched skills cv_text : ℚ) / (skills.length : ℚ) * 3)
      = ((countMatched skills cv_text * 3 : ℕ) : ℚ) / (skills.length : ℚ) := by
    push_cast; ring
  simp only [requiredDim, hne, Bool.false_eq_true, if_false, dimScore]
  rw [hcast, Nat.floor_div_nat, Nat.floor_natCast]

/-- C5 witness: requirements = three skills, CV text containing two of them
as substrings, sub-score 2. -/
theorem required_skills_floor_app :
    (requiredDim [s2l "python", s2l "java", s2l "go"] (s2l "python and go")).1 =
      min 3 (Nat.floor ((countMatched [s2l "python", s2l "java", s2l "go"]
          (s2l "python and go") : ℚ) /
        (([s2l "python", s2l "java", s2l "go"] : List (List Char)).length : ℚ) * 3)) ∧
    (requiredDim [s2l "python", s2l "java", s2l "go"] (s2l "python and go")).1 = 2 :=
  ⟨required_skills_floor _ _ (by decide), by decide⟩

/-- C6: with a positive minimum, the experience sub-score is decided by the
first `N year(s)` integer found in the lowercased CV text: `N >= min` gives 2
points, `N = min - 1` gives 1, smaller `N` gives 0 with explanatory feedback,
and no match gives 0 with "could not determine" feedback; with
`min_experience = 0` the full 2 points are awarded unconditionally. -/
theorem experience_subscore (m : Nat) (cv_text : List Char) :
    (m = 0 → expScore m cv_text = (2, [])) ∧
    (0 < m → searchYears cv_text = none →
      expScore m cv_text = (0, [s2l "Experience: Could not determine"])) ∧
    (∀ y, 0 < m → searchYears cv_text = some y → m ≤ y →
      expScore m cv_text =
        (2, [s2l "Experience: " ++ natStr y ++ s2l " years (meets requirement)"])) ∧
    (∀ y, 0 < m → searchYears cv_text = some y → y + 1 = m →
      expScore m cv_text =
        (1, [s2l "Experience: " ++ natStr y ++ s2l " years (close)"])) ∧
    (∀ y, 0 < m → searchYears cv_text = some y → y + 1 < m →
      expScore m cv_text =
        (0, [s2l "Experience: " ++ natStr y ++ s2l " years (below requirement)"])) := by
  refine ⟨?_, ?_, ?_, ?_, ?_⟩
  · intro h; simp [expScore, h]
  · intro hm hs; simp [expScore, hm, hs]
  · intro y hm hs hy; simp [expScore, hm, hs, hy]
  · intro y hm hs hy
    have h1 : ¬ m ≤ y := by omega
    have h2 : m - 1 ≤ y := by omega
    simp [expScore, hm, hs, h1, h2]
  · intro y hm hs hy
    have h1 : ¬ m ≤ y := by omega
    have h2 : ¬ m - 1 ≤ y := by omega
    simp [expScore, hm, hs, h1, h2]

/-- C6 witness: min_experience = 3 with CV texts "5 years of experience"
(meets), "2 years of experience" (one below: close), and one with no year
pattern (could not determine). -/
theorem experience_subscore_app :
    (expScore 3 (s2l "5 years of experience")).1 = 2 ∧
    (expScore 3 (s2l "2 years of experience")).1 = 1 ∧
    expScore 3 (s2l "we are passionate") =
      (0, [s2l "Experience: Could not determine"]) :=
  ⟨by rw [(experience_subscore 3 (s2l "5 years of experience")).2.2.1 5
      (by decide) (by decide) (by decide)],
   by rw [(experience_subscore 3 (s2l "2 years of experience")).2.2.2.1 2
      (by decide) (by decide) (by decide)],
   (experience_subscore 3 (s2l "we are passionate")).2.1 (by decide) (by decide)⟩

/-- The part loop of `extract_phone` returns the first match among the
`text/plain` parts. -/
theorem phoneScan_eq (ps : List MsgPart) :
    phoneScan ps =
      (((ps.filter (fun p => decide (p.contentType = s2l "text/plain"))).findSome?
          (fun p => phoneFromBody p.payload)).getD []) := by
  induction ps with
  | nil => rfl
  | cons p ps ih =>
    by_cases h : p.contentType = s2l "text/plain"
    · cases hp : phoneFromBody p.payload <;>
        simp [phoneScan, h, hp, List.filter_cons, List.findSome?_cons, ih]
    · simp [phoneScan, h, List.filter_cons, ih]

/-- C10 counterexample: a non-multipart message whose single plain-text body
part contains a phone-pattern match; `extract_phone` returns the empty
string rather than the match, because the source only walks the body when
`msg.is_multipart()` is true. -/
def msgNonMultipart : Message :=
  { fromHeader := s2l "x@example.com", subject := s2l "hello",
    multipart := false,
    parts := [{ contentType := s2l "text/plain", filename := none,
                hasContentDisposition := false,
                payload := s2l "call +12345678901 now" }] }

/-- C10 counterexample theorem: on `msgNonMultipart` the claimed behaviour
(`phone_spec`, scanning the plain-text parts) yields `+12345678901`, but
`extract_phone` yields the empty string. -/
theorem phone_nonmultipart_cex :
    phone_spec msgNonMultipart = s2l "+12345678901" ∧
    extract_phone msgNonMultipart = [] ∧
    extract_phone msgNonMultipart ≠ phone_spec msgNonMultipart :=
  ⟨by decide, rfl, by decide⟩

/-- C10 amended: only for multipart messages does phone extraction scan the
plain-text body parts and return the first match of the two phone patterns
(empty when no plain-text part matches); for non-multipart messages it
returns the empty string without scanning. -/
theorem phone_scan_refinement (msg : Message) :
    extract_phone msg = if msg.multipart then phone_spec msg else [] := by
  unfold extract_phone phone_spec
  split
  · exact phoneScan_eq msg.parts
  · rfl

/-! ## Ledger lemmas for the dispatch state machine -/

/-- The reply block `replyStep` never touches the processed-message set. -/
theorem replyStep_processed (cfg : Config) (d : List Char) (s : Bool)
    (e : List Char) (st : MonitorState) :
    (replyStep cfg d s e st).1.processedEmails = st.processedEmails := by
  unfold replyStep; split_ifs <;> rfl

/-- A key is in the reply ledger after `replyStep` iff it was there before or
a successful reply for it was just emitted. -/
theorem replyStep_sent_iff (cfg : Config) (d : List Char) (s : Bool)
    (e : List Char) (st : MonitorState) (k : List Char) :
    (k ∈ (replyStep cfg d s e st).1.sentReplies ↔
      k ∈ st.sentReplies ∨ Effect.reply k true ∈ (replyStep cfg d s e st).2) := by
  unfold replyStep
  split_ifs
  · simp
  · by_cases hk : k = replyKey e d
    · subst hk; simp
    · simp [List.mem_cons, hk]
  · simp
  · simp

/-- A failed reply leaves the reply ledger unchanged. -/
theorem replyStep_false_unchanged (cfg : Config) (d : List Char) (s : Bool)
    (e : List Char) (st : MonitorState) (k : List Char)
    (h : Effect.reply k false ∈ (replyStep cfg d s e st).2) :
    (replyStep cfg d s e st).1.sentReplies = st.sentReplies := by
  unfold replyStep at *; split_ifs at h <;> simp_all

/-- The reply ledger only grows. -/
theorem replyStep_sent_mono (cfg : Config) (d : List Char) (s : Bool)
    (e : List Char) (st : MonitorState) (k : List Char)
    (h : k ∈ st.sentReplies) : k ∈ (replyStep cfg d s e st).1.sentReplies := by
  unfold replyStep; split_ifs <;> simp_all

/-- Per-message reply bookkeeping: at most one successful reply for `k` is
emitted; none if `k` is already in the ledger; and a successful reply for
`k` puts `k` into the resulting ledger. -/
theorem replyStep_count (cfg : Config) (d : List Char) (s : Bool)
    (e : List Char) (st : MonitorState) (k : List Char) :
    replyCount (replyStep cfg d s e st).2 k ≤ 1 ∧
    (k ∈ st.sentReplies → replyCount (replyStep cfg d s e st).2 k = 0) ∧
    (1 ≤ replyCount (replyStep cfg d s e st).2 k →
      k ∈ (replyStep cfg d s e st).1.sentReplies) := by
  unfold replyStep
  split_ifs with h1 h2 h3
  · simp [replyCount]
  · by_cases hk : k = replyKey e d
    · subst hk; simp_all [replyCount, isReplyOk, List.filter]
    · have hk2 : replyKey e d ≠ k := fun h => hk h.symm
      simp [replyCount, isReplyOk, List.filter, hk2]
  · simp [replyCount, isReplyOk, List.filter]
  · simp [replyCount]

/-- The reply block `replyStep` emits no fetch effects. -/
theorem replyStep_no_fetch (cfg : Config) (d : List Char) (s : Bool)
    (e : List Char) (st : MonitorState) (i : List Char) :
    fetchCount (replyStep cfg d s e st).2 i = 0 := by
  unfold replyStep; split_ifs <;> simp [fetchCount, isFetchOf, List.filter]

/-- Count `replyCount` distributes over trace concatenation. -/
theorem replyCount_append (t1 t2 : List Effect) (k : List Char) :
    replyCount (t1 ++ t2) k = replyCount t1 k + replyCount t2 k := by
  simp [replyCount, List.filter_append]

/-- Count `fetchCount` distributes over trace concatenation. -/
theorem fetchCount_append (t1 t2 : List Effect) (i : List Char) :
    fetchCount (t1 ++ t2) i = fetchCount t1 i + fetchCount t2 i := by
  simp [fetchCount, List.filter_append]

/-- A fetch effect never counts as a successful reply. -/
theorem replyCount_cons_fetch (j : List Char) (t : List Effect) (k : List Char) :
    replyCount (Effect.fetch j :: t) k = replyCount t k := by
  simp [replyCount, List.filter, isReplyOk]

/-- Store and notify effects never count as successful replies. -/
theorem replyCount_store_notify (c : Candidate) (t : List Effect) (k : List Char) :
    replyCount (Effect.store c :: t) k = replyCount t k ∧
    replyCount (Effect.notify c :: t) k = replyCount t k := by
  constructor <;> simp [replyCount, List.filter, isReplyOk]

/-- Processing `process_application` never touches the processed-message set. -/
theorem pa_processed (cfg : Config) (reqs : Requirements) (renv : RunEnv)
    (sOk : Bool) (msg : Message) (st : MonitorState) :
    (process_application cfg reqs renv sOk msg st).1.processedEmails =
      st.processedEmails := by
  unfold process_application
  split
  · exact replyStep_processed _ _ _ _ _
  · rfl

/-- The successful-reply count of a `process_application` trace is the count
of its reply block when the message classifies as an application, else 0. -/
theorem pa_replyCount_eq (cfg : Config) (reqs : Requirements) (renv : RunEnv)
    (sOk : Bool) (msg : Message) (st : MonitorState) (k : List Char) :
    replyCount (process_application cfg reqs renv sOk msg st).2 k =
      (if is_job_application msg.subject msg = true
       then replyCount (replyStep cfg renv.date sOk (finalSender msg.fromHeader) st).2 k
       else 0) := by
  unfold process_application
  split
  · simp only [replyCount_append]
    split_ifs <;>
      simp [replyCount, List.filter, isReplyOk]
  · simp [replyCount, List.filter]

/-- The resulting state of `process_application` is the state its reply block
produces (or the input state on a classify-reject). -/
theorem pa_state_eq (cfg : Config) (reqs : Requirements) (renv : RunEnv)
    (sOk : Bool) (msg : Message) (st : MonitorState) :
    (process_application cfg reqs renv sOk msg st).1 =
      (if is_job_application msg.subject msg = true
       then (replyStep cfg renv.date sOk (finalSender msg.fromHeader) st).1
       else st) := by
  unfold process_application
  split <;> simp_all

/-- Processing `process_application` emits no fetch effects. -/
theorem pa_no_fetch (cfg : Config) (reqs : Requirements) (renv : RunEnv)
    (sOk : Bool) (msg : Message) (st : MonitorState) (i : List Char) :
    fetchCount (process_application cfg reqs renv sOk msg st).2 i = 0 := by
  unfold process_application
  split
  · rw [fetchCount_append, fetchCount_append, replyStep_no_fetch]
    split_ifs <;> simp [fetchCount, isFetchOf, List.filter]
  · simp [fetchCount, List.filter]

/-- The reply ledger only grows across `process_application`. -/
theorem pa_sent_mono (cfg : Config) (reqs : Requirements) (renv : RunEnv)
    (sOk : Bool) (msg : Message) (st : MonitorState) (k : List Char)
    (h : k ∈ st.sentReplies) :
    k ∈ (process_application cfg reqs renv sOk msg st).1.sentReplies := by
  rw [pa_state_eq]
  split
  · exact replyStep_sent_mono _ _ _ _ _ _ h
  · exact h

/-- Reply effects in a `process_application` trace are exactly the reply
block's, and occur only when the message classifies as an application. -/
theorem pa_reply_mem_iff (cfg : Config) (reqs : Requirements) (renv : RunEnv)
    (sOk : Bool) (msg : Message) (st : MonitorState) (k : List Char) (b : Bool) :
    (Effect.reply k b ∈ (process_application cfg reqs renv sOk msg st).2 ↔
      (is_job_application msg.subject msg = true ∧
        Effect.reply k b ∈ (replyStep cfg renv.date sOk (finalSender msg.fromHeader) st).2)) := by
  unfold process_application
  split
  · next hj => split_ifs <;> simp [hj]
  · next hj => simp [hj]

/-- C8: the daily reply key enters the ledger if and only if the outbound
send reported success; a failed send leaves the ledger unchanged, so a later
qualifying message from the same sender on the same day can still trigger a
reply. -/
theorem reply_ledger_iff_success (cfg : Config) (reqs : Requirements)
    (renv : RunEnv) (sOk : Bool) (msg : Message) (st : MonitorState)
    (k : List Char) :
    (k ∈ (process_application cfg reqs renv sOk msg st).1.sentReplies ↔
      k ∈ st.sentReplies ∨
        Effect.reply k true ∈ (process_application cfg reqs renv sOk msg st).2) ∧
    (Effect.reply k false ∈ (process_application cfg reqs renv sOk msg st).2 →
      (process_application cfg reqs renv sOk msg st).1.sentReplies =
        st.sentReplies) := by
  constructor
  · rw [pa_state_eq]
    by_cases hj : is_job_application msg.subject msg = true
    · rw [if_pos hj, replyStep_sent_iff, pa_reply_mem_iff]
      simp [hj]
    · rw [if_neg hj]
      have h2 := pa_reply_mem_iff cfg reqs renv sOk msg st k true
      simp [hj] at h2
      simp [h2]
  · intro h
    rw [pa_state_eq]
    by_cases hj : is_job_application msg.subject msg = true
    · rw [if_pos hj]
      have h2 := (pa_reply_mem_iff cfg reqs renv sOk msg st k false).mp h
      exact replyStep_false_unchanged _ _ _ _ _ _ h2.2
    · rw [if_neg hj]

/-- C8 witness: a qualifying message with a failing send: the failed reply is
in the trace and the ledger is unchanged. -/
def msgJobApp : Message :=
  { fromHeader := s2l "Bob <bob@example.com>", subject := s2l "Job Application",
    multipart := false, parts := [] }

/-- An environment whose reply sink always fails. -/
def renvC8 : RunEnv :=
  { date := s2l "2024-01-01", now := s2l "2024-01-01 09:00:00",
    fetch := fun _ => none, sendOk := fun _ => false,
    nameOf := fun _ => s2l "Bob", positionOf := fun _ => s2l "General",
    textOf := fun _ => [] }

/-- The empty ledger at startup. -/
def st0 : MonitorState := { processedEmails := [], sentReplies := [] }

/-- C8 witness theorem. -/
theorem reply_ledger_iff_success_app :
    Effect.reply (replyKey (s2l "bob@example.com") (s2l "2024-01-01")) false
      ∈ (process_application defaultConfig emptyRequirements renvC8 false msgJobApp st0).2 ∧
    (process_application defaultConfig emptyRequirements renvC8 false
        msgJobApp st0).1.sentReplies = st0.sentReplies :=
  ⟨by decide,
   (reply_ledger_iff_success defaultConfig emptyRequirements renvC8 false msgJobApp st0
      (replyKey (s2l "bob@example.com") (s2l "2024-01-01"))).2 (by decide)⟩

/-- The final sender is nulled exactly when the extracted email is empty,
fails the strict validator, or matches the automated-sender heuristic. -/
theorem finalSender_empty (f : List Char)
    (h : extract_email f = [] ∨ is_valid_email (extract_email f) = false ∨
      is_automated_email (extract_email f) = true) :
    finalSender f = [] := by
  unfold finalSender
  rcases h with h | h | h
  · simp [h]
  · simp [h]
  · by_cases h0 : extract_email f = []
    · simp [h0]
    · by_cases hv : is_valid_email (extract_email f) = false
      · simp [hv]
      · have hv2 : is_valid_email (extract_email f) = true := by
          cases hb : is_valid_email (extract_email f)
          · exact absurd hb hv
          · rfl
        simp [h0, hv2, h]

/-- The trace of `process_application` in closed form. -/
theorem pa_trace_eq (cfg : Config) (reqs : Requirements) (renv : RunEnv)
    (sOk : Bool) (msg : Message) (st : MonitorState) :
    (process_application cfg reqs renv sOk msg st).2 =
      (if is_job_application msg.subject msg = true then
        (if cfg.storage = true
         then [Effect.store (buildCandidate cfg reqs renv msg (finalSender msg.fromHeader))]
         else []) ++
        (if cfg.passing_score ≤ (buildCandidate cfg reqs renv msg (finalSender msg.fromHeader)).score
         then [Effect.notify (buildCandidate cfg reqs renv msg (finalSender msg.fromHeader))]
         else []) ++
        (replyStep cfg renv.date sOk (finalSender msg.fromHeader) st).2
      else []) := by
  unfold process_application
  split <;> simp [*]

/-- C9: when the extracted sender email fails the strict validator or matches
the automated-sender heuristic, the record's email is nulled, so no reply is
ever attempted and the reply ledger is untouched, while classification,
extraction, scoring, storage and notification still proceed on the record
(with its empty email). -/
theorem contact_gate_suppresses_reply (cfg : Config) (reqs : Requirements)
    (renv : RunEnv) (sOk : Bool) (msg : Message) (st : MonitorState)
    (h : extract_email msg.fromHeader = [] ∨
      is_valid_email (extract_email msg.fromHeader) = false ∨
      is_automated_email (extract_email msg.fromHeader) = true) :
    (∀ k b, Effect.reply k b ∉ (process_application cfg reqs renv sOk msg st).2) ∧
    (process_application cfg reqs renv sOk msg st).1 = st ∧
    (is_job_application msg.subject msg = true →
      (process_application cfg reqs renv sOk msg st).2 =
        (if cfg.storage = true
         then [Effect.store (buildCandidate cfg reqs renv msg [])] else []) ++
        (if cfg.passing_score ≤ (buildCandidate cfg reqs renv msg []).score
         then [Effect.notify (buildCandidate cfg reqs renv msg [])] else [])) := by
  have hf := finalSender_empty msg.fromHeader h
  have hrs : replyStep cfg renv.date sOk ([] : List Char) st = (st, []) := by
    simp [replyStep]
  refine ⟨?_, ?_, ?_⟩
  · intro k b hmem
    rw [pa_reply_mem_iff, hf, hrs] at hmem
    simp at hmem
  · rw [pa_state_eq, hf, hrs]
    split <;> rfl
  · intro hj
    rw [pa_trace_eq, if_pos hj, hf, hrs]
    simp

/-- C9 witness environment. -/
def renvC9 : RunEnv :=
  { date := s2l "2024-01-02", now := s2l "2024-01-02 09:00:00",
    fetch := fun _ => none, sendOk := fun _ => true,
    nameOf := fun _ => s2l "No Reply", positionOf := fun _ => s2l "Software Engineer",
    textOf := fun _ => [] }

/-- C9 witness message: an automated job-portal sender on a qualifying
subject. -/
def msgNoReply : Message :=
  { fromHeader := s2l "No Reply <noreply@linkedin.com>",
    subject := s2l "Application for Software Engineer",
    multipart := false, parts := [] }

/-- C9 witness theorem: no reply effect, and the record is stored with an
empty email. -/
theorem contact_gate_suppresses_reply_app :
    (∀ k b, Effect.reply k b ∉
      (process_application defaultConfig emptyRequirements renvC9 true msgNoReply st0).2) ∧
    (process_application defaultConfig emptyRequirements renvC9 true msgNoReply st0).2 =
      [Effect.store (buildCandidate defaultConfig emptyRequirements renvC9 msgNoReply [])] := by
  have h := contact_gate_suppresses_reply defaultConfig emptyRequirements renvC9 true
    msgNoReply st0 (Or.inr (Or.inr (by decide)))
  refine ⟨h.1, ?_⟩
  rw [h.2.2 (by decide)]
  decide

/-! ## Run-level invariants of `process_new_emails` -/

/-- Count `fetchCount` over a cons of a fetch effect. -/
theorem fetchCount_cons_fetch (j : List Char) (t : List Effect) (i : List Char) :
    fetchCount (Effect.fetch j :: t) i =
      (if j = i then 1 else 0) + fetchCount t i := by
  by_cases h : j = i <;>
    simp [fetchCount, List.filter, isFetchOf, h, Nat.add_comm]

/-- The processed set only grows across a run. -/
theorem run_processed_mono (cfg : Config) (reqs : Requirements) (renv : RunEnv)
    (ids : List (List Char)) (st : MonitorState) (x : List Char)
    (h : x ∈ st.processedEmails) :
    x ∈ (process_new_emails cfg reqs renv ids st).1.processedEmails := by
  induction ids generalizing st with
  | nil => exact h
  | cons id ids ih =>
    simp only [process_new_emails]
    split
    · exact ih st h
    · split
      · exact ih st h
      · apply ih
        exact List.mem_cons_of_mem _ (by rw [pa_processed]; exact h)

/-- The reply ledger only grows across a run. -/
theorem run_sent_mono (cfg : Config) (reqs : Requirements) (renv : RunEnv)
    (ids : List (List Char)) (st : MonitorState) (k : List Char)
    (h : k ∈ st.sentReplies) :
    k ∈ (process_new_emails cfg reqs renv ids st).1.sentReplies := by
  induction ids generalizing st with
  | nil => exact h
  | cons id ids ih =>
    simp only [process_new_emails]
    split
    · exact ih st h
    · split
      · exact ih st h
      · apply ih
        show k ∈ (process_application _ _ _ _ _ st).1.sentReplies
        exact pa_sent_mono _ _ _ _ _ _ _ h

/-- A window all of whose ids are already processed is skipped entirely:
same state, empty trace. -/
theorem run_skip_all (cfg : Config) (reqs : Requirements) (renv : RunEnv)
    (ids : List (List Char)) (st : MonitorState)
    (h : ∀ id ∈ ids, id ∈ st.processedEmails) :
    process_new_emails cfg reqs renv ids st = (st, []) := by
  induction ids with
  | nil => rfl
  | cons id ids ih =>
    simp only [process_new_emails]
    rw [if_pos (h id (List.mem_cons_self id ids))]
    exact ih fun i hi => h i (List.mem_cons_of_mem _ hi)

/-- Every id in the window whose fetch succeeds ends up in the processed set. -/
theorem run_adds (cfg : Config) (reqs : Requirements) (renv : RunEnv)
    (ids : List (List Char)) (st : MonitorState) (id : List Char)
    (hmem : id ∈ ids) (hf : (renv.fetch id).isSome = true) :
    id ∈ (process_new_emails cfg reqs renv ids st).1.processedEmails := by
  induction ids generalizing st with
  | nil => cases hmem
  | cons id2 ids ih =>
    rcases List.mem_cons.mp hmem with rfl | hmem2
    · simp only [process_new_emails]
      split
      · next hp => exact run_processed_mono _ _ _ _ _ _ hp
      · split
        · next heq => rw [heq] at hf; simp at hf
        · apply run_processed_mono
          exact List.mem_cons_self _ _
    · simp only [process_new_emails]
      split
      · exact ih st hmem2
      · split
        · exact ih st hmem2
        · exact ih _ hmem2

/-- An id already in the processed set is never fetched during a run. -/
theorem run_no_refetch (cfg : Config) (reqs : Requirements) (renv : RunEnv)
    (ids : List (List Char)) (st : MonitorState) (i : List Char)
    (h : i ∈ st.processedEmails) :
    fetchCount (process_new_emails cfg reqs renv ids st).2 i = 0 := by
  induction ids generalizing st with
  | nil => rfl
  | cons id ids ih =>
    simp only [process_new_emails]
    split
    · exact ih st h
    · next hp =>
      have hne : id ≠ i := fun he => hp (he ▸ h)
      split
      · rw [fetchCount_cons_fetch, if_neg hne, ih st h]
      · rw [fetchCount_cons_fetch, if_neg hne, fetchCount_append, pa_no_fetch]
        rw [ih _ (List.mem_cons_of_mem _ (by rw [pa_processed]; exact h))]

/-- An id whose fetch succeeds is fetched at most once in a run, even if it
occurs several times in the window. -/
theorem run_fetch_le_one (cfg : Config) (reqs : Requirements) (renv : RunEnv)
    (ids : List (List Char)) (st : MonitorState) (i : List Char)
    (hf : (renv.fetch i).isSome = true) :
    fetchCount (process_new_emails cfg reqs renv ids st).2 i ≤ 1 := by
  induction ids generalizing st with
  | nil => exact Nat.zero_le 1
  | cons id ids ih =>
    simp only [process_new_emails]
    split
    · exact ih st
    · split
      · next heq =>
        have hne : id ≠ i := by
          intro he; subst he; rw [heq] at hf; simp at hf
        rw [fetchCount_cons_fetch, if_neg hne]
        simpa using ih st
      · by_cases he : id = i
        · subst he
          rw [fetchCount_cons_fetch, if_pos rfl, fetchCount_append, pa_no_fetch]
          rw [run_no_refetch _ _ _ _ _ _ (List.mem_cons_self _ _)]
        · rw [fetchCount_cons_fetch, if_neg he, fetchCount_append, pa_no_fetch]
          simpa using ih _

/-- Per-message successful-reply bookkeeping for `process_application`. -/
theorem pa_count (cfg : Config) (reqs : Requirements) (renv : RunEnv)
    (sOk : Bool) (msg : Message) (st : MonitorState) (k : List Char) :
    replyCount (process_application cfg reqs renv sOk msg st).2 k ≤ 1 ∧
    (k ∈ st.sentReplies →
      replyCount (process_application cfg reqs renv sOk msg st).2 k = 0) ∧
    (1 ≤ replyCount (process_application cfg reqs renv sOk msg st).2 k →
      k ∈ (process_application cfg reqs renv sOk msg st).1.sentReplies) := by
  rw [pa_replyCount_eq, pa_state_eq]
  split
  · exact replyStep_count _ _ _ _ _ _
  · exact ⟨Nat.zero_le 1, fun _ => rfl, fun h => absurd h (by simp)⟩

/-- Run-level successful-reply bookkeeping: at most one successful reply for
any key; none at all if the key is already in the ledger; and a successful
reply lands the key in the resulting ledger. -/
theorem run_replyCount (cfg : Config) (reqs : Requirements) (renv : RunEnv)
    (ids : List (List Char)) (st : MonitorState) (k : List Char) :
    replyCount (process_new_emails cfg reqs renv ids st).2 k ≤ 1 ∧
    (k ∈ st.sentReplies →
      replyCount (process_new_emails cfg reqs renv ids st).2 k = 0) ∧
    (1 ≤ replyCount (process_new_emails cfg reqs renv ids st).2 k →
      k ∈ (process_new_emails cfg reqs renv ids st).1.sentReplies) := by
  induction ids generalizing st with
  | nil =>
    exact ⟨Nat.zero_le 1, fun _ => rfl,
      fun h => by simp [process_new_emails, replyCount] at h⟩
  | cons id ids ih =>
    simp only [process_new_emails]
    split
    · exact ih st
    · split
      · next heq =>
        refine ⟨?_, ?_, ?_⟩
        · rw [replyCount_cons_fetch]; exact (ih st).1
        · intro hk; rw [replyCount_cons_fetch]; exact (ih st).2.1 hk
        · intro hk; rw [replyCount_cons_fetch] at hk; exact (ih st).2.2 hk
      · next msg heq =>
        have hpa := pa_count cfg reqs renv (renv.sendOk id) msg st k
        set pa := process_application cfg reqs renv (renv.sendOk id) msg st with hpa_def
        set st2 : MonitorState :=
          { processedEmails := id :: pa.1.processedEmails,
            sentReplies := pa.1.sentReplies } with hst2_def
        have hih := ih st2
        have hsent : st2.sentReplies = pa.1.sentReplies := rfl
        refine ⟨?_, ?_, ?_⟩
        · rw [replyCount_cons_fetch, replyCount_append]
          rcases Nat.eq_zero_or_pos (replyCount pa.2 k) with h0 | h1
          · rw [h0]; simpa using hih.1
          · have hmem := hpa.2.2 h1
            have h2 := hih.2.1 (by rw [hsent]; exact hmem)
            have h3 := hpa.1
            omega
        · intro hk
          rw [replyCount_cons_fetch, replyCount_append, hpa.2.1 hk]
          have hmem2 : k ∈ st2.sentReplies := by
            rw [hsent]; exact pa_sent_mono _ _ _ _ _ _ _ hk
          simpa using hih.2.1 hmem2
        · intro hk
          rw [replyCount_cons_fetch, replyCount_append] at hk
          rcases Nat.eq_zero_or_pos
              (replyCount (process_new_emails cfg reqs renv ids st2).2 k) with h0 | h1
          · have hc : 1 ≤ replyCount pa.2 k := by omega
            exact run_sent_mono _ _ _ _ _ _ (by rw [hsent]; exact hpa.2.2 hc)
          · exact hih.2.2 h1

/-- C2: for every sender email and calendar day, at most one auto-reply is
sent during a run, no matter how many qualifying messages from that sender
are processed: the daily key is checked against the sent-reply set before
sending, and with the key already in the ledger no reply at all is sent. -/
theorem daily_reply_at_most_one (cfg : Config) (reqs : Requirements)
    (renv : RunEnv) (ids : List (List Char)) (st : MonitorState) (k : List Char) :
    replyCount (process_new_emails cfg reqs renv ids st).2 k ≤ 1 ∧
    (k ∈ st.sentReplies →
      replyCount (process_new_emails cfg reqs renv ids st).2 k = 0) ∧
    (1 ≤ replyCount (process_new_emails cfg reqs renv ids st).2 k →
      k ∈ (process_new_emails cfg reqs renv ids st).1.sentReplies) :=
  run_replyCount cfg reqs renv ids st k

/-- C2 witness environment: two distinct messages from the same sender, both
qualifying, on the same day, with a reply sink that always succeeds. -/
def renvC2 : RunEnv :=
  { date := s2l "2024-03-05", now := s2l "2024-03-05 10:00:00",
    fetch := fun i =>
      if i = s2l "1" then some msgJobApp
      else if i = s2l "2" then
        some { fromHeader := s2l "Bob <bob@example.com>",
               subject := s2l "Resume attached", multipart := false, parts := [] }
      else none,
    sendOk := fun _ => true,
    nameOf := fun _ => s2l "Bob", positionOf := fun _ => s2l "General",
    textOf := fun _ => [] }

/-- C2's daily key for the witness sender and date. -/
def keyC2 : List Char := replyKey (s2l "bob@example.com") (s2l "2024-03-05")

/-- A ledger that already contains the witness key. -/
def stWithKey : MonitorState := { processedEmails := [], sentReplies := [keyC2] }

/-- C2 witness theorem: over a two-message window from the same sender on the
same day, at most one successful reply; and none at all once the key is in
the ledger. -/
theorem daily_reply_at_most_one_app :
    replyCount (process_new_emails defaultConfig emptyRequirements renvC2
      [s2l "1", s2l "2"] st0).2 keyC2 ≤ 1 ∧
    replyCount (process_new_emails defaultConfig emptyRequirements renvC2
      [s2l "1", s2l "2"] stWithKey).2 keyC2 = 0 :=
  ⟨(daily_reply_at_most_one defaultConfig emptyRequirements renvC2
      [s2l "1", s2l "2"] st0 keyC2).1,
   (daily_reply_at_most_one defaultConfig emptyRequirements renvC2
      [s2l "1", s2l "2"] stWithKey keyC2).2.1 (by decide)⟩

/-- C7: a successfully fetched id enters the processed set when its
processing attempt completes, whether or not the classifier accepted it; ids
in the processed set stay there (the set only grows), are never fetched
again, and no id with a successful fetch is ever fetched twice in a run. -/
theorem processed_ledger_invariants (cfg : Config) (reqs : Requirements)
    (renv : RunEnv) (ids : List (List Char)) (st : MonitorState) (i : List Char) :
    (i ∈ ids → (renv.fetch i).isSome = true →
      i ∈ (process_new_emails cfg reqs renv ids st).1.processedEmails) ∧
    (i ∈ st.processedEmails →
      i ∈ (process_new_emails cfg reqs renv ids st).1.processedEmails) ∧
    (i ∈ st.processedEmails →
      fetchCount (process_new_emails cfg reqs renv ids st).2 i = 0) ∧
    ((renv.fetch i).isSome = true →
      fetchCount (process_new_emails cfg reqs renv ids st).2 i ≤ 1) :=
  ⟨fun h1 h2 => run_adds cfg reqs renv ids st i h1 h2,
   run_processed_mono cfg reqs renv ids st i,
   run_no_refetch cfg reqs renv ids st i,
   run_fetch_le_one cfg reqs renv ids st i⟩

/-- C7 witness message: no application keyword in the subject, no attachment,
not a portal sender — rejected by the classifier. -/
def msgCoffee : Message :=
  { fromHeader := s2l "alice@example.com", subject := s2l "Lets grab coffee",
    multipart := false,
    parts := [{ contentType := s2l "text/plain", filename := none,
                hasContentDisposition := false, payload := s2l "see you at 5" }] }

/-- C7 witness environment: one fetchable message, the coffee invite. -/
def renvC7 : RunEnv :=
  { date := s2l "2024-03-06", now := s2l "2024-03-06 10:00:00",
    fetch := fun i => if i = s2l "1" then some msgCoffee else none,
    sendOk := fun _ => true,
    nameOf := fun _ => s2l "alice", positionOf := fun _ => s2l "General",
    textOf := fun _ => [] }

/-- C7 witness theorem: the classifier rejects the coffee message, yet its id
still lands in the processed set after the run. -/
theorem processed_ledger_invariants_app :
    s2l "1" ∈ (process_new_emails defaultConfig emptyRequirements renvC7
      [s2l "1"] st0).1.processedEmails ∧
    is_job_application (s2l "Lets grab coffee") msgCoffee = false :=
  ⟨(processed_ledger_invariants defaultConfig emptyRequirements renvC7
      [s2l "1"] st0 (s2l "1")).1 (by decide) (by decide),
   by decide⟩

/-- C1: a second run over an identical fetch window (same ids, same
environment, ledger state left by the first run) is completely silent —
same state, empty effect trace (no fetch, storage, notification or reply
side effects) — because every id is already in the processed set and is
skipped before fetch. -/
theorem second_run_silent (cfg : Config) (reqs : Requirements) (renv : RunEnv)
    (ids : List (List Char)) (stInit : MonitorState)
    (h : ∀ id ∈ ids, (renv.fetch id).isSome = true) :
    process_new_emails cfg reqs renv ids
        (process_new_emails cfg reqs renv ids stInit).1 =
      ((process_new_emails cfg reqs renv ids stInit).1, []) ∧
    (∀ id ∈ ids,
      id ∈ (process_new_emails cfg reqs renv ids stInit).1.processedEmails) := by
  have hall : ∀ id ∈ ids,
      id ∈ (process_new_emails cfg reqs renv ids stInit).1.processedEmails :=
    fun id hid => run_adds cfg reqs renv ids stInit id hid (h id hid)
  exact ⟨run_skip_all cfg reqs renv ids _ hall, hall⟩

/-- C1 witness theorem: with C2's two-message window (every fetch succeeds),
the second run over the same window is silent. -/
theorem second_run_silent_app :
    process_new_emails defaultConfig emptyRequirements renvC2 [s2l "1", s2l "2"]
        (process_new_emails defaultConfig emptyRequirements renvC2
          [s2l "1", s2l "2"] st0).1 =
      ((process_new_emails defaultConfig emptyRequirements renvC2
          [s2l "1", s2l "2"] st0).1, []) :=
  (second_run_silent defaultConfig emptyRequirements renvC2 [s2l "1", s2l "2"]
    st0 (by decide)).1
